import Mathlib

/-!
Verification of the prompts-framework maintenance utilities.

The repository's load-bearing logic lives in three Python scripts:

* `reorganize_framework.py` — `reorganize_framework` re-shapes a flat JSON
  document into seven labelled groups plus a verbatim `meta` entry, and
  `validate_reorganization` (the Completeness Checker) compares top-level key
  sets of source and output.
* `restructure_framework.py` — `restructure_framework` builds a progressive
  disclosure structure, using the `extract_essential_* / extract_advanced_*`
  split helpers, each of which partitions a mapping by a static allow-list
  (or a list at the fixed prefix length 7).
* `framework_self_validation.py` — `validate_cognitive_load`,
  `validate_progressive_disclosure` and `validate_self_enforcement` check
  structural conventions of a document (item-count limits, substring markers
  in the `json.dumps` serialization).

We embed JSON values as the inductive type `JValue`; Python dictionaries
become association lists (`Dict`), with uniqueness of keys (`List.Nodup` of
the key list) assumed where a statement needs it, matching the data model's
"root-level keys are unique".  Fallible Python code (code that can raise
`KeyError` / `TypeError` on some inputs) is embedded with an `Option` result.
-/

/-- JSON-compatible values: object, array, string, integer number, boolean,
null.  (The repository's documents only ever use integral numbers; floats are
out of scope of the claims, so `num` carries an `Int`.) -/
inductive JValue : Type where
  | null : JValue
  | bool : Bool → JValue
  | num : Int → JValue
  | str : String → JValue
  | arr : List JValue → JValue
  | obj : List (String × JValue) → JValue

/-- A Python `dict` from string keys to JSON values, as an association list. -/
abbrev Dict := List (String × JValue)

/-- Key list of a dictionary (Python `d.keys()`, in insertion order). -/
def keysOf (d : Dict) : List String :=
  d.map Prod.fst

/-- Python `d.get(k, default)`. -/
def getD (d : Dict) (k : String) (dflt : JValue) : JValue :=
  (d.lookup k).getD dflt

/-- Python `{key: m[key] for key in allow if key in m}`: the sub-mapping of
`m` restricted to the allow-listed keys, in allow-list order. -/
def dictRestrict (m : Dict) (allow : List String) : Dict :=
  allow.filterMap (fun k => (m.lookup k).map (fun v => (k, v)))

/-- Python `{key: value for key, value in m.items() if key not in banned}`:
the sub-mapping of `m` on the keys outside `banned`, in source order. -/
def dictRemove (m : Dict) (banned : List String) : Dict :=
  m.filter (fun kv => !(banned.contains kv.1))

/-- View a JSON value as a mapping; `none` on any non-object, modelling the
`TypeError` or `AttributeError` Python raises when dictionary operations are
applied to a non-dictionary value. -/
def asObj : JValue → Option Dict
  | JValue.obj m => some m
  | _ => none

/-- View a JSON value as a list; `none` on any non-array (Python `TypeError`
on slicing a non-sequence). -/
def asArr : JValue → Option (List JValue)
  | JValue.arr xs => some xs
  | _ => none

/-! ## reorganize_framework.py -/

/-- Embedding of `reorganize_framework` (the file I/O stripped away: the
function's whole effect is the returned document).  Every member key is read
with `original.get(key, default)`; the group skeleton, descriptions,
`reveal_on` tags and complexity tiers are literal. -/
def reorganize_framework (original : Dict) : Dict :=
  [("meta", getD original "meta" (JValue.obj [])),
   ("core_framework", JValue.obj
     [("description", JValue.str "Essential framework components - always visible"),
      ("reveal_on", JValue.str "immediate"),
      ("complexity", JValue.str "medium"),
      ("core", getD original "core" (JValue.obj [])),
      ("universal_standards", getD original "universal_standards" (JValue.obj [])),
      ("behavioral_rules", getD original "behavioral_rules" (JValue.obj [])),
      ("principles", getD original "principles" (JValue.arr []))]),
   ("development_domains", JValue.obj
     [("description", JValue.str "Domain-specific development standards and tools"),
      ("reveal_on", JValue.str "domain_specific_project_detected"),
      ("complexity", JValue.str "high"),
      ("web_development", getD original "web_development" (JValue.obj [])),
      ("design_system", getD original "design_system" (JValue.obj [])),
      ("music_audio_processing", getD original "music_audio_processing" (JValue.obj [])),
      ("file_processing", getD original "file_processing" (JValue.obj []))]),
   ("ai_and_automation", JValue.obj
     [("description", JValue.str "AI enhancement, automation, and intelligent capabilities"),
      ("reveal_on", JValue.str "ai_features_needed"),
      ("complexity", JValue.str "high"),
      ("ai_enhancement", getD original "ai_enhancement" (JValue.obj [])),
      ("specialized_capabilities", getD original "specialized_capabilities" (JValue.obj [])),
      ("autonomous_completion", getD original "autonomous_completion" (JValue.obj []))]),
   ("business_and_communication", JValue.obj
     [("description", JValue.str "Business strategy and communication standards"),
      ("reveal_on", JValue.str "business_context_needed"),
      ("complexity", JValue.str "medium"),
      ("business_strategy", getD original "business_strategy" (JValue.obj [])),
      ("communication", getD original "communication" (JValue.obj []))]),
   ("quality_and_standards", JValue.obj
     [("description", JValue.str "Quality assurance, formatting, and validation standards"),
      ("reveal_on", JValue.str "quality_validation_needed"),
      ("complexity", JValue.str "medium"),
      ("quality", getD original "quality" (JValue.obj [])),
      ("formatting", getD original "formatting" (JValue.obj [])),
      ("documentation", getD original "documentation" (JValue.obj [])),
      ("validation_enhancement", getD original "validation_enhancement" (JValue.obj [])),
      ("_validation", getD original "_validation" (JValue.obj []))]),
   ("operations_and_workflow", JValue.obj
     [("description", JValue.str "Workflow management, monitoring, and operational concerns"),
      ("reveal_on", JValue.str "operational_management_needed"),
      ("complexity", JValue.str "medium"),
      ("workflow", getD original "workflow" (JValue.obj [])),
      ("monitoring", getD original "monitoring" (JValue.obj [])),
      ("execution", getD original "execution" (JValue.obj [])),
      ("system_configurations", getD original "system_configurations" (JValue.obj [])),
      ("infrastructure_preservation", getD original "infrastructure_preservation" (JValue.obj []))]),
   ("framework_management", JValue.obj
     [("description", JValue.str "Framework self-management, optimization, and maintenance"),
      ("reveal_on", JValue.str "framework_maintenance_needed"),
      ("complexity", JValue.str "high"),
      ("self_optimization", getD original "self_optimization" (JValue.obj [])),
      ("cross_reference_integrity_system", getD original "cross_reference_integrity_system" (JValue.obj [])),
      ("change_management", getD original "change_management" (JValue.obj [])),
      ("framework_self_optimization", getD original "framework_self_optimization" (JValue.obj [])),
      ("eof_metadata", getD original "eof_metadata" (JValue.obj []))])]

/-- The static descriptive fields the Completeness Checker skips inside each
group (`["description", "reveal_on", "complexity"]` in the source). -/
def descriptive_fields : List String :=
  ["description", "reveal_on", "complexity"]

/-- The member keys the reorganizer's grouping schema lists, in output group
order: every `original.get` of a member performed by `reorganize_framework`. -/
def schema_member_keys : List String :=
  ["core", "universal_standards", "behavioral_rules", "principles",
   "web_development", "design_system", "music_audio_processing", "file_processing",
   "ai_enhancement", "specialized_capabilities", "autonomous_completion",
   "business_strategy", "communication",
   "quality", "formatting", "documentation", "validation_enhancement", "_validation",
   "workflow", "monitoring", "execution", "system_configurations", "infrastructure_preservation",
   "self_optimization", "cross_reference_integrity_system", "change_management",
   "framework_self_optimization", "eof_metadata"]

/-- Member keys one group of the checked document contributes: nothing for the
`meta` group or a non-dictionary group value (the `isinstance(group_data,
dict)` guard), otherwise the group's keys other than the descriptive fields. -/
def group_member_keys (gv : String × JValue) : List String :=
  if gv.1 = "meta" then []
  else
    match gv.2 with
    | JValue.obj group_data =>
        (keysOf group_data).filter (fun s => !(descriptive_fields.contains s))
    | _ => []

/-- First half of `validate_reorganization`:
`original_sections = set(original.keys()) - set(["meta"])`. -/
def original_sections (original : Dict) : Finset String :=
  (keysOf original).toFinset \ {"meta"}

/-- Second half of `validate_reorganization`: the member keys collected from
every group of the reorganized document (a set; the source accumulates them
with `set.add` over a loop). -/
def recovered_sections (reorganized : Dict) : Finset String :=
  (reorganized.flatMap group_member_keys).toFinset

/-- The checker's `missing_sections = original_sections - reorganized_sections`. -/
def missing_sections (original reorganized : Dict) : Finset String :=
  original_sections original \ recovered_sections reorganized

/-- The checker's `extra_sections = reorganized_sections - original_sections`. -/
def extra_sections (original reorganized : Dict) : Finset String :=
  recovered_sections reorganized \ original_sections original

/-- Embedding of `validate_reorganization`'s verdict: `False` when
`missing_sections` is truthy (non-empty), else `False` when `extra_sections`
is truthy, else `True`. -/
def validate_reorganization (original reorganized : Dict) : Bool :=
  if missing_sections original reorganized ≠ ∅ then false
  else if extra_sections original reorganized ≠ ∅ then false
  else true

theorem recovered_sections_reorganize (original : Dict) :
    recovered_sections (reorganize_framework original) = schema_member_keys.toFinset := rfl

/-! ## restructure_framework.py -/

/-- The static allow-list of `extract_essential_behavioral_rules`. -/
def essential_rule_keys : List String :=
  ["approval_required", "full_internalization", "never_truncate_policy", "surgical_precision"]

/-- Embedding of `extract_essential_behavioral_rules`.  When `core_rules` is
absent (which subsumes the `not behavioral_rules` truthiness test, since an
empty dictionary has no keys) the source returns `{}`.  Otherwise it builds
`{key: core_rules[key] for key in essential_rule_keys if key in core_rules}`,
which requires `core_rules` to be a mapping; a non-mapping value is modelled
as `none` (Python raises a `TypeError` there for container contents). -/
def extract_essential_behavioral_rules (behavioral_rules : Dict) : Option Dict :=
  match behavioral_rules.lookup "core_rules" with
  | none => some []
  | some (JValue.obj core_rules) => some (dictRestrict core_rules essential_rule_keys)
  | some _ => none

/-- Embedding of `extract_advanced_behavioral_rules`: the complementary
sub-mapping `{key: value for key, value in core_rules.items() if key not in
essential_keys}`, under the same guards. -/
def extract_advanced_behavioral_rules (behavioral_rules : Dict) : Option Dict :=
  match behavioral_rules.lookup "core_rules" with
  | none => some []
  | some (JValue.obj core_rules) => some (dictRemove core_rules essential_rule_keys)
  | some _ => none

/-- Embedding of `extract_essential_principles`: `principles[:7] if principles
else []` (the truthiness test checks non-emptiness). -/
def extract_essential_principles (principles : List JValue) : List JValue :=
  if !principles.isEmpty then principles.take 7 else []

/-- Embedding of `extract_advanced_principles`: `principles[7:] if
len(principles) > 7 else []`. -/
def extract_advanced_principles (principles : List JValue) : List JValue :=
  if 7 < principles.length then principles.drop 7 else []

/-- The static allow-list of `extract_essential_web_patterns`. -/
def essential_web_keys : List String :=
  ["responsive_design", "accessibility", "performance", "semantic_html", "css_architecture"]

/-- Embedding of `extract_essential_web_patterns`.  The `if not web_dev:
return {}` guard returns the empty dictionary, which the restriction below
also produces on an empty input, so the guard collapses away. -/
def extract_essential_web_patterns (web_dev : Dict) : Dict :=
  dictRestrict web_dev essential_web_keys

/-- Embedding of `extract_advanced_web_features` (same collapsed guard). -/
def extract_advanced_web_features (web_dev : Dict) : Dict :=
  dictRemove web_dev essential_web_keys

/-- The static allow-list of `extract_core_design_components`. -/
def core_design_keys : List String :=
  ["typography", "color_system", "spacing", "component_library"]

/-- Embedding of `extract_core_design_components`. -/
def extract_core_design_components (design_system : Dict) : Dict :=
  dictRestrict design_system core_design_keys

/-- Embedding of `extract_advanced_design_components`. -/
def extract_advanced_design_components (design_system : Dict) : Dict :=
  dictRemove design_system core_design_keys

/-- The static allow-list of `extract_essential_execution`. -/
def essential_execution_keys : List String :=
  ["validation_gates", "error_handling", "rollback_mechanisms"]

/-- Embedding of `extract_essential_execution`. -/
def extract_essential_execution (execution : Dict) : Dict :=
  dictRestrict execution essential_execution_keys

/-- Embedding of `extract_advanced_execution`. -/
def extract_advanced_execution (execution : Dict) : Dict :=
  dictRemove execution essential_execution_keys

/-- The document literal `restructure_framework` builds, parameterised by the
values the surrounding function reads from the source (the structure, literal
strings and nesting follow the source's dictionary literal verbatim). -/
def restructured_output (original meta essential_rules advanced_rules : Dict)
    (principles : List JValue) (web_development design_system execution : Dict) : Dict :=
  [("meta", JValue.obj
     [("essential_info", JValue.obj
       [("version", JValue.str "38.0.0"),
        ("timestamp", JValue.str "2025-01-27T15:30:00Z"),
        ("author", JValue.str "anon987654321"),
        ("description", JValue.str "Self-optimized prompts.json v38.0.0 with cognitive load management"),
        ("self_validated", JValue.bool true),
        ("auto_applies_to", JValue.str "every_file_and_entire_projects")]),
      ("framework_details", JValue.obj
       [("reveal_on", JValue.str "detailed_inspection_needed"),
        ("complexity", JValue.str "medium"),
        ("consolidation_summary", getD meta "consolidation_summary" (JValue.obj [])),
        ("compliance", getD meta "compliance" (JValue.arr []))]),
      ("integration_config", JValue.obj
       [("reveal_on", JValue.str "deployment_or_integration"),
        ("complexity", JValue.str "low"),
        ("role", getD meta "role" (JValue.str "")),
        ("execution_disclaimer", getD meta "execution_disclaimer" (JValue.str "")),
        ("github_integration", getD meta "github_integration" (JValue.obj []))]),
      ("self_optimization", JValue.obj
       [("cognitive_load_management", JValue.bool true),
        ("progressive_disclosure_enabled", JValue.bool true),
        ("framework_health_checks", JValue.bool true),
        ("self_enforcement_active", JValue.bool true),
        ("last_self_validation", JValue.str "2025-01-27T15:30:00Z")])]),
   ("core_framework", JValue.obj
     [("essential_first", JValue.bool true),
      ("description", JValue.str "Core behavioral rules and restrictions - essential for all operations"),
      ("file_policy", getD original "file_policy" (JValue.obj [])),
      ("core_restrictions", getD original "core_restrictions" (JValue.obj [])),
      ("behavioral_rules", JValue.obj
       [("essential_rules", JValue.obj
         [("reveal_on", JValue.str "immediate"),
          ("rules", JValue.obj essential_rules)]),
        ("advanced_rules", JValue.obj
         [("reveal_on", JValue.str "complex_scenarios"),
          ("complexity", JValue.str "high"),
          ("rules", JValue.obj advanced_rules)])])]),
   ("standards_and_principles", JValue.obj
     [("description", JValue.str "Universal standards and core principles - progressive disclosure by complexity"),
      ("essential_principles", JValue.obj
       [("reveal_on", JValue.str "immediate"),
        ("complexity", JValue.str "low"),
        ("principles", JValue.arr (extract_essential_principles principles))]),
      ("advanced_principles", JValue.obj
       [("reveal_on", JValue.str "advanced_usage"),
        ("complexity", JValue.str "medium"),
        ("principles", JValue.arr (extract_advanced_principles principles))]),
      ("universal_standards", getD original "universal_standards" (JValue.obj [])),
      ("formatting_rules", getD original "formatting_rules" (JValue.obj [])),
      ("error_handling", getD original "error_handling" (JValue.obj []))]),
   ("development_domains", JValue.obj
     [("description", JValue.str "Domain-specific development standards - revealed based on project type"),
      ("web_development", JValue.obj
       [("essential_patterns", JValue.obj
         [("reveal_on", JValue.str "web_project_detected"),
          ("complexity", JValue.str "medium"),
          ("patterns", JValue.obj (extract_essential_web_patterns web_development))]),
        ("advanced_features", JValue.obj
         [("reveal_on", JValue.str "complex_web_features_needed"),
          ("complexity", JValue.str "high"),
          ("features", JValue.obj (extract_advanced_web_features web_development))])]),
      ("design_system", JValue.obj
       [("core_components", JValue.obj
         [("reveal_on", JValue.str "ui_design_needed"),
          ("complexity", JValue.str "medium"),
          ("components", JValue.obj (extract_core_design_components design_system))]),
        ("advanced_design", JValue.obj
         [("reveal_on", JValue.str "sophisticated_design_needed"),
          ("complexity", JValue.str "high"),
          ("components", JValue.obj (extract_advanced_design_components design_system))])])]),
   ("specialized_systems", JValue.obj
     [("description", JValue.str "Specialized systems and advanced features - revealed on demand"),
      ("ai3_assistant_system", JValue.obj
       [("reveal_on", JValue.str "ai_assistance_needed"),
        ("complexity", JValue.str "high"),
        ("system", getD original "ai3_assistant_system" (JValue.obj []))]),
      ("rails_8_ecosystem", JValue.obj
       [("reveal_on", JValue.str "rails_project_detected"),
        ("complexity", JValue.str "medium"),
        ("ecosystem", getD original "rails_8_ecosystem" (JValue.obj []))]),
      ("audio_visualizer_system", JValue.obj
       [("reveal_on", JValue.str "audio_visualization_needed"),
        ("complexity", JValue.str "high"),
        ("system", getD original "audio_visualizer_system" (JValue.obj []))]),
      ("business_strategy", JValue.obj
       [("reveal_on", JValue.str "business_planning_needed"),
        ("complexity", JValue.str "medium"),
        ("strategy", getD original "business_strategy" (JValue.obj []))])]),
   ("operational_framework", JValue.obj
     [("description", JValue.str "Execution, validation, and operational concerns"),
      ("execution", JValue.obj
       [("essential_execution", JValue.obj
         [("reveal_on", JValue.str "immediate"),
          ("complexity", JValue.str "low"),
          ("patterns", JValue.obj (extract_essential_execution execution))]),
        ("advanced_execution", JValue.obj
         [("reveal_on", JValue.str "complex_operations_needed"),
          ("complexity", JValue.str "high"),
          ("patterns", JValue.obj (extract_advanced_execution execution))])]),
      ("validation_framework", getD original "validation_framework" (JValue.obj [])),
      ("change_management", getD original "change_management" (JValue.obj [])),
      ("communication", getD original "communication" (JValue.obj [])),
      ("communication_standards", getD original "communication_standards" (JValue.obj []))]),
   ("framework_health", JValue.obj
     [("description", JValue.str "Framework self-monitoring and health checks"),
      ("health_checks", JValue.obj
       [("cognitive_load_validation", JValue.bool true),
        ("progressive_disclosure_validation", JValue.bool true),
        ("dry_compliance_check", JValue.bool true),
        ("self_enforcement_check", JValue.bool true)]),
      ("self_enforcement", JValue.obj
       [("framework_applies_to_itself", JValue.bool true),
        ("recursive_validation", JValue.bool true),
        ("continuous_improvement", JValue.bool true)])])]

/-- Embedding of `restructure_framework` (file I/O stripped).  The source
indexes `original["meta"]` directly — a `KeyError` when `meta` is absent — and
then calls `.get` on it, which demands a mapping; every other top-level key is
read with `original.get(key, default)`.  The split helpers are applied to the
`behavioral_rules`, `principles`, `web_development`, `design_system` and
`execution` values, which therefore must be of their schema type (mapping,
or list for `principles`) whenever present; other member values pass through
verbatim with no type demands.  A failing access is modelled as `none`. -/
def restructure_framework (original : Dict) : Option Dict :=
  match original.lookup "meta" with
  | some (JValue.obj meta) =>
    match asObj (getD original "behavioral_rules" (JValue.obj [])) with
    | none => none
    | some behavioral_rules =>
      match extract_essential_behavioral_rules behavioral_rules with
      | none => none
      | some essential_rules =>
        match extract_advanced_behavioral_rules behavioral_rules with
        | none => none
        | some advanced_rules =>
          match asArr (getD original "principles" (JValue.arr [])) with
          | none => none
          | some principles =>
            match asObj (getD original "web_development" (JValue.obj [])) with
            | none => none
            | some web_development =>
              match asObj (getD original "design_system" (JValue.obj [])) with
              | none => none
              | some design_system =>
                match asObj (getD original "execution" (JValue.obj [])) with
                | none => none
                | some execution =>
                  some (restructured_output original meta essential_rules advanced_rules
                    principles web_development design_system execution)
  | _ => none

/-! ## framework_self_validation.py -/

/-- One entry of the `violations` list `validate_cognitive_load` accumulates
(the dictionaries with `type` / `location` / `count` / `limit` / `severity`). -/
structure Violation : Type where
  vtype : String
  location : String
  count : Nat
  limit : Nat
  severity : String

/-- The violations contributed by one top-level entry of the document: a
mapping value with more than 9 keys or a list value with more than 9 elements
(the `isinstance` branches of the `for key, value in ...items()` loop). -/
def sub_violations_for (kv : String × JValue) : List Violation :=
  match kv.2 with
  | JValue.obj value =>
      if 9 < value.length then [⟨"cognitive_overload", kv.1, value.length, 9, "medium"⟩] else []
  | JValue.arr value =>
      if 9 < value.length then [⟨"cognitive_overload", kv.1, value.length, 9, "medium"⟩] else []
  | _ => []

/-- Embedding of `FrameworkSelfValidator.validate_cognitive_load`: the root
check (`len(self.framework_data.keys()) > 9`) followed by the loop over
top-level entries; the result is the pair of the `compliant` flag
(`len(violations) == 0`) and the violations list. -/
def validate_cognitive_load (framework_data : Dict) : Bool × List Violation :=
  let root_violations :=
    if 9 < framework_data.length then
      [(⟨"cognitive_overload", "root", framework_data.length, 9, "high"⟩ : Violation)]
    else []
  let violations := root_violations ++ framework_data.flatMap sub_violations_for
  (violations.isEmpty, violations)

/-- Hexadecimal digit, lower case, for the `\uXXXX` escapes of `json.dumps`. -/
def hexDigit (n : Nat) : Char :=
  if n < 10 then Char.ofNat (48 + n) else Char.ofNat (87 + n)

/-- Escaping of one character in a `json.dumps` string with the default
`ensure_ascii=True`: quote, backslash and the named control escapes, `\uXXXX`
for the remaining control and non-ASCII characters (characters beyond the
basic multilingual plane, which Python renders as surrogate pairs, do not
occur in the claims and are rendered here as a single `\uXXXX`). -/
def escapeChar (c : Char) : List Char :=
  if c = '"' then ['\\', '"']
  else if c = '\\' then ['\\', '\\']
  else if c = '\n' then ['\\', 'n']
  else if c = '\t' then ['\\', 't']
  else if c = '\r' then ['\\', 'r']
  else if c.toNat = 8 then ['\\', 'b']
  else if c.toNat = 12 then ['\\', 'f']
  else if c.toNat < 32 || 126 < c.toNat then
    ['\\', 'u', hexDigit (c.toNat / 4096 % 16), hexDigit (c.toNat / 256 % 16),
     hexDigit (c.toNat / 16 % 16), hexDigit (c.toNat % 16)]
  else [c]

/-- JSON string-body escaping (every character through `escapeChar`). -/
def jsonEscape (s : String) : String :=
  String.mk (s.data.flatMap escapeChar)

mutual

/-- Embedding of `json.dumps` with its default separators: objects as
`{"k": v, ...}`, arrays as `[v, ...]`, strings quoted and escaped. -/
def dumps : JValue → String
  | JValue.null => "null"
  | JValue.bool b => if b then "true" else "false"
  | JValue.num n => toString n
  | JValue.str s => "\"" ++ jsonEscape s ++ "\""
  | JValue.arr elems => "[" ++ dumpsElems elems ++ "]"
  | JValue.obj fields => "\x7b" ++ dumpsFields fields ++ "\x7d"

/-- Array elements of `dumps`, joined by a comma and a space. -/
def dumpsElems : List JValue → String
  | [] => ""
  | [v] => dumps v
  | v :: rest => dumps v ++ ", " ++ dumpsElems rest

/-- Object entries of `dumps`, `"key": value` joined by a comma and a space. -/
def dumpsFields : List (String × JValue) → String
  | [] => ""
  | [(k, v)] => "\"" ++ jsonEscape k ++ "\": " ++ dumps v
  | (k, v) :: rest => "\"" ++ jsonEscape k ++ "\": " ++ dumps v ++ ", " ++ dumpsFields rest

end

/-- Left-to-right non-overlapping scan behind `pyCount`; the counter argument
is the number of characters still covered by the previous match. -/
def pyCountAux (pat : List Char) : List Char → Nat → Nat
  | [], _ => 0
  | _ :: rest, Nat.succ k => pyCountAux pat rest k
  | c :: rest, 0 =>
    if pat.isPrefixOf (c :: rest) then 1 + pyCountAux pat rest (pat.length - 1)
    else pyCountAux pat rest 0

/-- Python `s.count(pat)`: the number of non-overlapping occurrences of `pat`
in `s`, scanning left to right (`len(s) + 1` for the empty pattern). -/
def pyCount (s pat : String) : Nat :=
  if pat.isEmpty then s.length + 1 else pyCountAux pat.data s.data 0

/-- Python `pat in s`: substring containment, via the occurrence count. -/
def pyContains (s pat : String) : Bool :=
  pyCount s pat != 0

/-- Embedding of `validate_progressive_disclosure`: serialize the document,
count the three marker substrings, and report compliant when `reveal_on_count
> 0 or essential_first_count > 0`; the counts are returned alongside (the
source's `patterns_found` mapping). -/
def validate_progressive_disclosure (framework_data : Dict) : Bool × Nat × Nat × Nat :=
  let framework_str := dumps (JValue.obj framework_data)
  let reveal_on_count := pyCount framework_str "\"reveal_on\""
  let essential_first_count := pyCount framework_str "\"essential_first\""
  let complexity_indicators := pyCount framework_str "\"complexity\""
  (decide (0 < reveal_on_count) || decide (0 < essential_first_count),
   reveal_on_count, essential_first_count, complexity_indicators)

/-- Embedding of `validate_self_enforcement`: the four substring indicators
over the serialized document, compliant when at least 2 hold
(`sum(indicators.values()) >= 2`); the indicators are returned alongside. -/
def validate_self_enforcement (framework_data : Dict) : Bool × Bool × Bool × Bool × Bool :=
  let framework_str := dumps (JValue.obj framework_data)
  let self_validated := pyContains framework_str "\"self_validated\""
  let health_checks := pyContains framework_str "health_check"
  let validation_framework := pyContains framework_str "\"validation_framework\""
  let auto_applies := pyContains framework_str "\"auto_applies\""
  let indicator_sum :=
    (if self_validated then 1 else 0) + (if health_checks then 1 else 0) +
    (if validation_framework then 1 else 0) + (if auto_applies then 1 else 0)
  (decide (2 ≤ indicator_sum), self_validated, health_checks, validation_framework, auto_applies)

/-! ## Association-list lemmas -/

theorem lookup_eq_none_iff (m : Dict) (k : String) :
    m.lookup k = none ↔ k ∉ keysOf m := by
  induction m with
  | nil => simp [keysOf]
  | cons kv rest ih =>
    obtain ⟨k', v⟩ := kv
    by_cases h : k = k'
    · subst h
      simp [List.lookup, keysOf]
    · have hstep : List.lookup k ((k', v) :: rest) = List.lookup k rest := by
        simp [List.lookup, beq_false_of_ne h]
      rw [hstep, ih]
      simp [keysOf, h]

theorem mem_of_lookup_eq_some {m : Dict} {k : String} {v : JValue}
    (h : m.lookup k = some v) : (k, v) ∈ m := by
  induction m with
  | nil => simp [List.lookup] at h
  | cons kv rest ih =>
    obtain ⟨k', v'⟩ := kv
    by_cases hk : k = k'
    · subst hk
      simp [List.lookup] at h
      simp [h]
    · simp [List.lookup, beq_false_of_ne hk] at h
      exact List.mem_cons_of_mem _ (ih h)

theorem lookup_eq_some_of_mem_nodup {m : Dict} {k : String} {v : JValue}
    (hnd : (keysOf m).Nodup) (h : (k, v) ∈ m) : m.lookup k = some v := by
  induction m with
  | nil => simp at h
  | cons kv rest ih =>
    obtain ⟨k', v'⟩ := kv
    simp only [keysOf, List.map_cons, List.nodup_cons] at hnd
    rcases List.mem_cons.1 h with heq | hmem
    · obtain ⟨rfl, rfl⟩ := Prod.mk.injEq .. ▸ heq
      simp [List.lookup]
    · have hk : k ≠ k' := by
        rintro rfl
        exact hnd.1 (List.mem_map_of_mem Prod.fst hmem)
      simp [List.lookup, beq_false_of_ne hk]
      exact ih hnd.2 hmem

theorem lookup_eq_some_iff_mem {m : Dict} {k : String} {v : JValue}
    (hnd : (keysOf m).Nodup) : m.lookup k = some v ↔ (k, v) ∈ m :=
  ⟨mem_of_lookup_eq_some, lookup_eq_some_of_mem_nodup hnd⟩

theorem mem_dictRestrict {m : Dict} {allow : List String} {k : String} {v : JValue} :
    (k, v) ∈ dictRestrict m allow ↔ k ∈ allow ∧ m.lookup k = some v := by
  simp only [dictRestrict, List.mem_filterMap, Option.map_eq_some']
  constructor
  · rintro ⟨a, ha, w, hw, heq⟩
    obtain ⟨rfl, rfl⟩ := Prod.mk.injEq .. ▸ heq.symm
    exact ⟨ha, hw⟩
  · rintro ⟨ha, hw⟩
    exact ⟨k, ha, v, hw, rfl⟩

theorem mem_dictRemove {m : Dict} {banned : List String} {k : String} {v : JValue} :
    (k, v) ∈ dictRemove m banned ↔ (k, v) ∈ m ∧ k ∉ banned := by
  simp [dictRemove, List.mem_filter]

theorem keys_dictRestrict_subset {m : Dict} {allow : List String} {k : String}
    (h : k ∈ keysOf (dictRestrict m allow)) : k ∈ allow := by
  simp only [keysOf, List.mem_map] at h
  obtain ⟨⟨k', v⟩, hm, rfl⟩ := h
  exact (mem_dictRestrict.1 hm).1

theorem keys_dictRemove_not_mem {m : Dict} {banned : List String} {k : String}
    (h : k ∈ keysOf (dictRemove m banned)) : k ∉ banned := by
  simp only [keysOf, List.mem_map] at h
  obtain ⟨⟨k', v⟩, hm, rfl⟩ := h
  exact (mem_dictRemove.1 hm).2

/-- The specification's Split partition law, for a split of the mapping `M`
into `essential` and `advanced` by the allow-list `allow`: the essential part
is exactly `M` restricted to the allow-list, the advanced part is exactly the
remaining entries, the two key sets are disjoint, and together the entries
recover `M` exactly. -/
def splitSpec (essential advanced : Dict) (allow : List String) (M : Dict) : Prop :=
  (∀ k v, (k, v) ∈ essential ↔ k ∈ allow ∧ (k, v) ∈ M) ∧
  (∀ k v, (k, v) ∈ advanced ↔ k ∉ allow ∧ (k, v) ∈ M) ∧
  (∀ k, k ∈ keysOf essential → k ∉ keysOf advanced) ∧
  (∀ kv, kv ∈ essential ∨ kv ∈ advanced ↔ kv ∈ M)

theorem splitSpec_restrict_remove (M : Dict) (allow : List String)
    (hnd : (keysOf M).Nodup) :
    splitSpec (dictRestrict M allow) (dictRemove M allow) allow M := by
  refine ⟨fun k v => ?_, fun k v => ?_, fun k hk₁ hk₂ => ?_, fun kv => ?_⟩
  · rw [mem_dictRestrict, lookup_eq_some_iff_mem hnd]
  · rw [mem_dictRemove, and_comm]
  · exact keys_dictRemove_not_mem hk₂ (keys_dictRestrict_subset hk₁)
  · obtain ⟨k, v⟩ := kv
    rw [mem_dictRestrict, lookup_eq_some_iff_mem hnd, mem_dictRemove]
    by_cases hka : k ∈ allow <;> simp [hka]

/-! ## Claim theorems -/

/-- C3: for every list of principles of length L, the essential extract is
exactly the first min(7, L) elements, the advanced extract is exactly the
remaining L - min(7, L) elements, and their concatenation is the original
list, for every L ≥ 0. -/
theorem principles_split_law (principles : List JValue) :
    extract_essential_principles principles = principles.take (min 7 principles.length) ∧
    (extract_essential_principles principles).length = min 7 principles.length ∧
    extract_advanced_principles principles = principles.drop (min 7 principles.length) ∧
    (extract_advanced_principles principles).length = principles.length - min 7 principles.length ∧
    extract_essential_principles principles ++ extract_advanced_principles principles
      = principles := by
  have hminTake : principles.take (min 7 principles.length) = principles.take 7 := by
    rcases le_total 7 principles.length with h | h
    · rw [min_eq_left h]
    · rw [min_eq_right h, List.take_length, List.take_of_length_le h]
  have hminDrop : principles.drop (min 7 principles.length) = principles.drop 7 := by
    rcases le_total 7 principles.length with h | h
    · rw [min_eq_left h]
    · rw [min_eq_right h, List.drop_length, List.drop_eq_nil_of_le h]
  have hess : extract_essential_principles principles = principles.take 7 := by
    unfold extract_essential_principles
    rcases principles with _ | ⟨q, qs⟩ <;> simp
  have hadv : extract_advanced_principles principles = principles.drop 7 := by
    unfold extract_advanced_principles
    by_cases h : 7 < principles.length
    · simp [h]
    · simp [h, List.drop_eq_nil_of_le (by omega : principles.length ≤ 7)]
  refine ⟨by rw [hess, hminTake], by rw [hess, List.length_take], by rw [hadv, hminDrop],
    by rw [hadv, List.length_drop]; omega, by rw [hess, hadv, List.take_append_drop]⟩

/-- C2: for every mapping M fed to one of the four mapping Split Slots
(web_development, design_system, execution, and behavioral_rules via its
core_rules member), the essential part is M restricted to the static
allow-list, the advanced part is the remaining entries, the two key sets are
disjoint, and together the entries are exactly those of M. -/
theorem split_slot_partition (M : Dict) (hnd : (keysOf M).Nodup) :
    splitSpec (extract_essential_web_patterns M) (extract_advanced_web_features M)
      essential_web_keys M ∧
    splitSpec (extract_core_design_components M) (extract_advanced_design_components M)
      core_design_keys M ∧
    splitSpec (extract_essential_execution M) (extract_advanced_execution M)
      essential_execution_keys M ∧
    (∀ behavioral_rules : Dict,
      behavioral_rules.lookup "core_rules" = some (JValue.obj M) →
      ∃ E A, extract_essential_behavioral_rules behavioral_rules = some E ∧
        extract_advanced_behavioral_rules behavioral_rules = some A ∧
        splitSpec E A essential_rule_keys M) := by
  refine ⟨splitSpec_restrict_remove M _ hnd, splitSpec_restrict_remove M _ hnd,
    splitSpec_restrict_remove M _ hnd, fun behavioral_rules h => ?_⟩
  refine ⟨dictRestrict M essential_rule_keys, dictRemove M essential_rule_keys, ?_, ?_,
    splitSpec_restrict_remove M _ hnd⟩
  · simp [extract_essential_behavioral_rules, h]
  · simp [extract_advanced_behavioral_rules, h]

/-- Sample mapping for the witnesses: two keys, one on the allow-lists'
boundary, one outside every allow-list. -/
def sampleMapping : Dict :=
  [("responsive_design", JValue.str "fluid"), ("custom_extra", JValue.num 3)]

/-- Sample behavioral_rules value: a core_rules mapping plus a sibling key. -/
def sampleBehavioral : Dict :=
  [("core_rules", JValue.obj sampleMapping), ("secondary_rules", JValue.null)]

theorem split_slot_partition_witness :
    (keysOf sampleMapping).Nodup ∧
    (splitSpec (extract_essential_web_patterns sampleMapping)
        (extract_advanced_web_features sampleMapping) essential_web_keys sampleMapping ∧
     splitSpec (extract_core_design_components sampleMapping)
        (extract_advanced_design_components sampleMapping) core_design_keys sampleMapping ∧
     splitSpec (extract_essential_execution sampleMapping)
        (extract_advanced_execution sampleMapping) essential_execution_keys sampleMapping ∧
     (∀ behavioral_rules : Dict,
        behavioral_rules.lookup "core_rules" = some (JValue.obj sampleMapping) →
        ∃ E A, extract_essential_behavioral_rules behavioral_rules = some E ∧
          extract_advanced_behavioral_rules behavioral_rules = some A ∧
          splitSpec E A essential_rule_keys sampleMapping)) :=
  ⟨by decide, split_slot_partition sampleMapping (by decide)⟩

/-- C7: the reorganizer copies the value stored under the reserved metadata
key "meta" into its output unchanged. -/
theorem meta_passthrough (original : Dict) (v : JValue)
    (h : original.lookup "meta" = some v) :
    (reorganize_framework original).lookup "meta" = some v := by
  simp [reorganize_framework, List.lookup, getD, h]

theorem meta_passthrough_witness :
    ([("meta", JValue.str "v35")] : Dict).lookup "meta" = some (JValue.str "v35") ∧
    (reorganize_framework [("meta", JValue.str "v35")]).lookup "meta"
      = some (JValue.str "v35") :=
  ⟨rfl, meta_passthrough _ _ rfl⟩

/-- A document with a single top-level key outside the grouping schema. -/
def customDoc : Dict := [("custom_section", JValue.obj [])]

/-- C1 fails as stated: on `customDoc` the checker reports both a missing
section ("custom_section" appears in no group) and extra sections (all the
empty placeholders), so the round trip is not lossless for every document. -/
theorem reorganize_roundtrip_counterexample :
    ¬ (missing_sections customDoc (reorganize_framework customDoc) = ∅ ∧
       extra_sections customDoc (reorganize_framework customDoc) = ∅) := by
  intro h
  have hmem : "custom_section" ∈ missing_sections customDoc (reorganize_framework customDoc) := by
    decide
  rw [h.1] at hmem
  exact absurd hmem (Finset.not_mem_empty _)

/-- C1, amended: the reorganizer followed by the Completeness Checker yields
`missing = ∅` and `extra = ∅` exactly when the source's top-level keys other
than "meta" are precisely the 28 schema member keys; the recovered key set is
always the full schema key set, whatever the source contains. -/
theorem reorganize_roundtrip_characterization (original : Dict) :
    (missing_sections original (reorganize_framework original) = ∅ ∧
     extra_sections original (reorganize_framework original) = ∅) ↔
    original_sections original = schema_member_keys.toFinset := by
  simp only [missing_sections, extra_sections, recovered_sections_reorganize,
    Finset.sdiff_eq_empty_iff_subset]
  exact (Finset.Subset.antisymm_iff).symm

/-- The output slot the reorganizer gives member key `k`: the value stored
under `k` inside the first non-"meta" group whose value is a mapping
containing `k`. -/
def memberValue : Dict → String → Option JValue
  | [], _ => none
  | gv :: rest, k =>
    match (if gv.1 = "meta" then none
           else
             match gv.2 with
             | JValue.obj group_data => group_data.lookup k
             | _ => none : Option JValue) with
    | some v => some v
    | none => memberValue rest k

/-- The empty container the reorganizer inserts for an absent member key:
`[]` for the list-typed "principles" member, `{}` for every other member. -/
def empty_placeholder (k : String) : JValue :=
  if k = "principles" then JValue.arr [] else JValue.obj []

/-- C4 fails as stated: reorganizing the empty document does insert the empty
placeholder for the absent member "core", but the Completeness Checker then
reports "core" in its extra set. -/
theorem missing_key_extra_counterexample :
    memberValue (reorganize_framework []) "core" = some (JValue.obj []) ∧
    "core" ∈ extra_sections [] (reorganize_framework []) := by
  exact ⟨rfl, by decide⟩

/-- C4, amended: for every schema member key absent from the source, the
reorganizer does not fail and emits the empty placeholder in the member's
slot, but the Completeness Checker reports that member key in its extra set
(the placeholder's key is recovered while absent from the source). -/
theorem missing_key_placeholder_flagged (original : Dict) (k : String)
    (hk : k ∈ schema_member_keys) (habs : original.lookup k = none) :
    memberValue (reorganize_framework original) k = some (empty_placeholder k) ∧
    k ∈ extra_sections original (reorganize_framework original) := by
  constructor
  · fin_cases hk <;>
      simp [memberValue, reorganize_framework, getD, habs, empty_placeholder, List.lookup]
  · rw [extra_sections, recovered_sections_reorganize]
    have hknotin : k ∉ keysOf original := (lookup_eq_none_iff original k).1 habs
    refine Finset.mem_sdiff.2 ⟨List.mem_toFinset.2 hk, fun hcon => ?_⟩
    rw [original_sections, Finset.mem_sdiff, List.mem_toFinset] at hcon
    exact hknotin hcon.1

theorem missing_key_placeholder_flagged_witness :
    "core" ∈ schema_member_keys ∧ ([] : Dict).lookup "core" = none ∧
    (memberValue (reorganize_framework []) "core" = some (empty_placeholder "core") ∧
     "core" ∈ extra_sections [] (reorganize_framework [])) :=
  ⟨by decide, rfl, missing_key_placeholder_flagged [] "core" (by decide) rfl⟩

/-- Modelled on the spec's wording for the Completeness Checker:
`original_keys = keys(source) − reserved metadata key`. -/
def specOriginalKeys (source : Dict) : Finset String :=
  (keysOf source).toFinset \ {"meta"}

/-- Keys of a JSON value, empty for anything that is not an object. -/
def jKeys : JValue → List String
  | JValue.obj m => keysOf m
  | _ => []

/-- Modelled on the spec's wording for the Completeness Checker:
`recovered_keys` is the union, over all groups of the target except "meta",
of the group's keys minus the three static descriptive fields. -/
def specRecoveredKeys (target : Dict) : Finset String :=
  target.foldr
    (fun gv acc =>
      (if gv.1 = "meta" then ∅ else (jKeys gv.2).toFinset \ descriptive_fields.toFinset) ∪ acc)
    ∅

theorem filter_not_contains_toFinset (l banned : List String) :
    (l.filter (fun s => !(banned.contains s))).toFinset = l.toFinset \ banned.toFinset := by
  ext x
  simp [List.mem_filter]

theorem group_member_keys_toFinset (gv : String × JValue) :
    (group_member_keys gv).toFinset =
      if gv.1 = "meta" then ∅ else (jKeys gv.2).toFinset \ descriptive_fields.toFinset := by
  obtain ⟨g, v⟩ := gv
  by_cases hg : g = "meta"
  · simp [group_member_keys, hg]
  · cases v <;> refine Finset.ext fun x => ?_ <;>
      simp [group_member_keys, jKeys, hg, List.mem_filter, keysOf]

theorem recovered_sections_eq_spec (target : Dict) :
    recovered_sections target = specRecoveredKeys target := by
  induction target with
  | nil => rfl
  | cons gv rest ih =>
    have hcons : specRecoveredKeys (gv :: rest) =
        (if gv.1 = "meta" then ∅ else (jKeys gv.2).toFinset \ descriptive_fields.toFinset) ∪
          specRecoveredKeys rest := rfl
    rw [recovered_sections, List.flatMap_cons, List.toFinset_append, hcons, ← ih,
      group_member_keys_toFinset, recovered_sections]

/-- C6: the Completeness Checker computes exactly the spec's sets —
`original_keys` is the source's top-level keys minus the reserved "meta" key,
`recovered_keys` is the union over the non-"meta" groups of the member keys
minus the descriptive fields, `missing`/`extra` are the two set differences,
and the verdict is failure precisely when one of the two is non-empty. -/
theorem validate_reorganization_contract (source target : Dict) :
    missing_sections source target = specOriginalKeys source \ specRecoveredKeys target ∧
    extra_sections source target = specRecoveredKeys target \ specOriginalKeys source ∧
    (validate_reorganization source target = false ↔
      (specOriginalKeys source \ specRecoveredKeys target ≠ ∅ ∨
       specRecoveredKeys target \ specOriginalKeys source ≠ ∅)) ∧
    (validate_reorganization source target = true ↔
      (specOriginalKeys source \ specRecoveredKeys target = ∅ ∧
       specRecoveredKeys target \ specOriginalKeys source = ∅)) := by
  have hrec : recovered_sections target = specRecoveredKeys target :=
    recovered_sections_eq_spec target
  have horig : original_sections source = specOriginalKeys source := rfl
  have hmiss : missing_sections source target = specOriginalKeys source \ specRecoveredKeys target := by
    rw [missing_sections, hrec, horig]
  have hextra : extra_sections source target = specRecoveredKeys target \ specOriginalKeys source := by
    rw [extra_sections, hrec, horig]
  refine ⟨hmiss, hextra, ?_, ?_⟩ <;>
    simp only [validate_reorganization, hmiss, hextra] <;>
    by_cases h1 : specOriginalKeys source \ specRecoveredKeys target = ∅ <;>
    by_cases h2 : specRecoveredKeys target \ specOriginalKeys source = ∅ <;>
    simp [h1, h2]

/-- C8: the cognitive-load check reports a violation exactly when the root has
more than 9 entries, or some top-level mapping value has more than 9 keys, or
some top-level list value has more than 9 elements; it is compliant exactly
when no such violation exists. -/
theorem cognitive_load_contract (framework_data : Dict) :
    ((validate_cognitive_load framework_data).2 ≠ [] ↔
      (9 < framework_data.length ∨ ∃ kv ∈ framework_data,
        (∃ m, kv.2 = JValue.obj m ∧ 9 < m.length) ∨
        (∃ xs, kv.2 = JValue.arr xs ∧ 9 < xs.length))) ∧
    ((validate_cognitive_load framework_data).1 = true ↔
      ¬ (9 < framework_data.length ∨ ∃ kv ∈ framework_data,
        (∃ m, kv.2 = JValue.obj m ∧ 9 < m.length) ∨
        (∃ xs, kv.2 = JValue.arr xs ∧ 9 < xs.length))) := by
  have hsub : ∀ kv : String × JValue, sub_violations_for kv = [] ↔
      ¬ ((∃ m, kv.2 = JValue.obj m ∧ 9 < m.length) ∨
         (∃ xs, kv.2 = JValue.arr xs ∧ 9 < xs.length)) := by
    intro kv
    obtain ⟨k, v⟩ := kv
    cases v <;> simp [sub_violations_for]
  have hlist : (validate_cognitive_load framework_data).2 = [] ↔
      ¬ (9 < framework_data.length ∨ ∃ kv ∈ framework_data,
        (∃ m, kv.2 = JValue.obj m ∧ 9 < m.length) ∨
        (∃ xs, kv.2 = JValue.arr xs ∧ 9 < xs.length)) := by
    rw [validate_cognitive_load]
    simp only [List.append_eq_nil, List.flatMap_eq_nil_iff, not_or]
    constructor
    · rintro ⟨hroot, hall⟩
      refine ⟨?_, ?_⟩
      · intro hgt
        simp [hgt] at hroot
      · rintro ⟨kv, hmem, hviol⟩
        exact ((hsub kv).1 (hall kv hmem)) hviol
    · rintro ⟨hroot, hnone⟩
      refine ⟨?_, fun kv hmem => (hsub kv).2 fun hviol => hnone ⟨kv, hmem, hviol⟩⟩
      simp [hroot]
  constructor
  · exact (not_congr hlist).trans not_not
  · have h1 : (validate_cognitive_load framework_data).1
        = (validate_cognitive_load framework_data).2.isEmpty := rfl
    rw [h1, List.isEmpty_iff, hlist]

/-- A document whose serialization contains the "reveal_on" marker but none of
the other progressive-disclosure indicators. -/
def revealOnlyDoc : Dict := [("reveal_on", JValue.null)]

/-- C9 fails as stated for the progressive-disclosure check: on
`revealOnlyDoc` exactly one of the scanned indicators is present
(`reveal_on` once, `essential_first` and `complexity` zero times), yet the
check reports compliant. -/
theorem progressive_disclosure_counterexample :
    (validate_progressive_disclosure revealOnlyDoc).1 = true ∧
    (validate_progressive_disclosure revealOnlyDoc).2.1 = 1 ∧
    (validate_progressive_disclosure revealOnlyDoc).2.2.1 = 0 ∧
    (validate_progressive_disclosure revealOnlyDoc).2.2.2 = 0 := by
  decide

/-- C9, amended: the progressive-disclosure check is compliant exactly when at
least 1 of its 2 compliance indicators ("reveal_on", "essential_first")
occurs in the serialized document; the self-enforcement check is compliant
exactly when at least 2 of its 4 indicators are present. -/
theorem convention_checks_characterization (framework_data : Dict) :
    ((validate_progressive_disclosure framework_data).1 = true ↔
      0 < pyCount (dumps (JValue.obj framework_data)) "\"reveal_on\"" ∨
      0 < pyCount (dumps (JValue.obj framework_data)) "\"essential_first\"") ∧
    ((validate_self_enforcement framework_data).1 = true ↔
      2 ≤ (if pyContains (dumps (JValue.obj framework_data)) "\"self_validated\"" then 1 else 0)
        + (if pyContains (dumps (JValue.obj framework_data)) "health_check" then 1 else 0)
        + (if pyContains (dumps (JValue.obj framework_data)) "\"validation_framework\"" then 1 else 0)
        + (if pyContains (dumps (JValue.obj framework_data)) "\"auto_applies\"" then 1 else 0)) := by
  constructor
  · simp [validate_progressive_disclosure]
  · simp [validate_self_enforcement]

/-- C10: the behavioral_rules split keeps exactly the entries of the
core_rules sub-mapping — the essential and advanced parts together hold
precisely core_rules' entries (and are empty when core_rules is absent), the
extractors' output depends only on the core_rules value, so every other
sub-key of behavioral_rules is dropped, and the top-level key-set
Completeness Checker cannot observe the loss: its missing and extra sets are
unchanged under any replacement of the behavioral_rules value. -/
theorem behavioral_rules_core_only (behavioral_rules core_rules : Dict)
    (h : behavioral_rules.lookup "core_rules" = some (JValue.obj core_rules))
    (hnd : (keysOf core_rules).Nodup) :
    (∃ E A, extract_essential_behavioral_rules behavioral_rules = some E ∧
       extract_advanced_behavioral_rules behavioral_rules = some A ∧
       (∀ kv, (kv ∈ E ∨ kv ∈ A) ↔ kv ∈ core_rules)) ∧
    (∀ b : Dict, b.lookup "core_rules" = none →
       extract_essential_behavioral_rules b = some [] ∧
       extract_advanced_behavioral_rules b = some []) ∧
    (∀ b : Dict, b.lookup "core_rules" = behavioral_rules.lookup "core_rules" →
       extract_essential_behavioral_rules b = extract_essential_behavioral_rules behavioral_rules ∧
       extract_advanced_behavioral_rules b = extract_advanced_behavioral_rules behavioral_rules) ∧
    (∀ (o : Dict) (v v' : JValue),
       missing_sections (("behavioral_rules", v) :: o)
           (reorganize_framework (("behavioral_rules", v) :: o))
         = missing_sections (("behavioral_rules", v') :: o)
             (reorganize_framework (("behavioral_rules", v') :: o)) ∧
       extra_sections (("behavioral_rules", v) :: o)
           (reorganize_framework (("behavioral_rules", v) :: o))
         = extra_sections (("behavioral_rules", v') :: o)
             (reorganize_framework (("behavioral_rules", v') :: o))) := by
  refine ⟨?_, ?_, ?_, ?_⟩
  · refine ⟨dictRestrict core_rules essential_rule_keys,
      dictRemove core_rules essential_rule_keys,
      by simp [extract_essential_behavioral_rules, h],
      by simp [extract_advanced_behavioral_rules, h],
      (splitSpec_restrict_remove core_rules essential_rule_keys hnd).2.2.2⟩
  · intro b hb
    exact ⟨by simp [extract_essential_behavioral_rules, hb],
      by simp [extract_advanced_behavioral_rules, hb]⟩
  · intro b hb
    exact ⟨by rw [extract_essential_behavioral_rules, extract_essential_behavioral_rules, hb],
      by rw [extract_advanced_behavioral_rules, extract_advanced_behavioral_rules, hb]⟩
  · intro o v v'
    constructor <;>
      simp only [missing_sections, extra_sections, recovered_sections_reorganize] <;> rfl

theorem behavioral_rules_core_only_witness :
    sampleBehavioral.lookup "core_rules" = some (JValue.obj sampleMapping) ∧
    (keysOf sampleMapping).Nodup ∧
    ((∃ E A, extract_essential_behavioral_rules sampleBehavioral = some E ∧
        extract_advanced_behavioral_rules sampleBehavioral = some A ∧
        (∀ kv, (kv ∈ E ∨ kv ∈ A) ↔ kv ∈ sampleMapping)) ∧
     (∀ b : Dict, b.lookup "core_rules" = none →
        extract_essential_behavioral_rules b = some [] ∧
        extract_advanced_behavioral_rules b = some []) ∧
     (∀ b : Dict, b.lookup "core_rules" = sampleBehavioral.lookup "core_rules" →
        extract_essential_behavioral_rules b = extract_essential_behavioral_rules sampleBehavioral ∧
        extract_advanced_behavioral_rules b = extract_advanced_behavioral_rules sampleBehavioral) ∧
     (∀ (o : Dict) (v v' : JValue),
        missing_sections (("behavioral_rules", v) :: o)
            (reorganize_framework (("behavioral_rules", v) :: o))
          = missing_sections (("behavioral_rules", v') :: o)
              (reorganize_framework (("behavioral_rules", v') :: o)) ∧
        extra_sections (("behavioral_rules", v) :: o)
            (reorganize_framework (("behavioral_rules", v) :: o))
          = extra_sections (("behavioral_rules", v') :: o)
              (reorganize_framework (("behavioral_rules", v') :: o)))) :=
  ⟨rfl, by decide, behavioral_rules_core_only sampleBehavioral sampleMapping rfl (by decide)⟩

/-- C5 fails as stated: the empty document is a valid JSON object, every
top-level key (including "meta") is missing from it, and the restructuring
transform fails on it (the source raises KeyError at `original["meta"]`). -/
theorem restructure_missing_meta_counterexample :
    restructure_framework [] = none := rfl

/-- C5, amended: the restructuring transform runs without error on every
document that has a "meta" key with a mapping value and whose split-source
members — behavioral_rules (and its core_rules sub-key), principles,
web_development, design_system, execution — are, when present, of their
schema types (mapping, or list for principles); in particular no missing
top-level key other than "meta" ever causes a failure. -/
theorem restructure_totality_on_typed_inputs (original : Dict)
    (hmeta : ∃ m, original.lookup "meta" = some (JValue.obj m))
    (hbeh : original.lookup "behavioral_rules" = none ∨
      ∃ b, original.lookup "behavioral_rules" = some (JValue.obj b) ∧
        (b.lookup "core_rules" = none ∨ ∃ c, b.lookup "core_rules" = some (JValue.obj c)))
    (hpr : original.lookup "principles" = none ∨
      ∃ l, original.lookup "principles" = some (JValue.arr l))
    (hweb : original.lookup "web_development" = none ∨
      ∃ w, original.lookup "web_development" = some (JValue.obj w))
    (hdes : original.lookup "design_system" = none ∨
      ∃ d, original.lookup "design_system" = some (JValue.obj d))
    (hexe : original.lookup "execution" = none ∨
      ∃ e, original.lookup "execution" = some (JValue.obj e)) :
    (restructure_framework original).isSome = true := by
  obtain ⟨m, hm⟩ := hmeta
  rw [restructure_framework, hm]
  rcases hbeh with hbeh | ⟨b, hbeh, hcore | ⟨c, hcore⟩⟩ <;>
    rcases hpr with hpr | ⟨l, hpr⟩ <;>
    rcases hweb with hweb | ⟨w, hweb⟩ <;>
    rcases hdes with hdes | ⟨d, hdes⟩ <;>
    rcases hexe with hexe | ⟨e, hexe⟩ <;>
    simp [getD, asObj, asArr, extract_essential_behavioral_rules,
      extract_advanced_behavioral_rules, *]

/-- The smallest well-typed source: only the "meta" key, as an empty object. -/
def minimalTypedDoc : Dict := [("meta", JValue.obj [])]

theorem restructure_totality_witness :
    (∃ m, minimalTypedDoc.lookup "meta" = some (JValue.obj m)) ∧
    minimalTypedDoc.lookup "behavioral_rules" = none ∧
    minimalTypedDoc.lookup "principles" = none ∧
    minimalTypedDoc.lookup "web_development" = none ∧
    minimalTypedDoc.lookup "design_system" = none ∧
    minimalTypedDoc.lookup "execution" = none ∧
    (restructure_framework minimalTypedDoc).isSome = true :=
  ⟨⟨[], rfl⟩, rfl, rfl, rfl, rfl, rfl,
    restructure_totality_on_typed_inputs minimalTypedDoc ⟨[], rfl⟩ (Or.inl rfl) (Or.inl rfl)
      (Or.inl rfl) (Or.inl rfl) (Or.inl rfl)⟩
